import Mathlib

/-!
Verification of the mongo-mcp gateway (Python sources `src/mongo_mcp/config.py`
and `src/mongo_mcp/server.py`) against its natural-language specification.

The embedding models the process environment as a partial map from variable
names to strings, mirroring `os.environ.get`.  Configuration values are pure
functions of that environment, exactly as `config.py` computes them at import
time.  Components whose Python source lives in modules not present in the
repository snapshot (`mongo_mcp.tools`, `mongo_mcp.db`,
`mongo_mcp.utils.json_encoder`) are modelled from the specification text and
carry a doc comment saying so.
-/

/-- The process environment: `os.environ.get name` yields `env name`. -/
def Env : Type := String → Option String

/-- `os.environ.get key dflt` — lookup with a default. -/
def envGet (env : Env) (key dflt : String) : String :=
  (env key).getD dflt

/-- Python string truthiness for `Optional[str]` values: `None` and the empty
string are falsy. -/
def truthy : Option String → Bool
  | none => false
  | some s => s ≠ ""

/-- Decimal digit accumulation for `pyNat`. -/
def digitsToNat (acc : Nat) : List Char → Option Nat
  | [] => some acc
  | c :: rest => if c.isDigit then digitsToNat (acc * 10 + (c.toNat - 48)) rest else none

/-- Python `int(s)` for the non-negative decimal strings used by `config.py`:
`none` when the string is empty or contains a non-digit (Python raises). -/
def pyNat (s : String) : Option Nat :=
  match s.toList with
  | [] => none
  | cs => digitsToNat 0 cs

/-- Python `str.lower()` (ASCII case mapping, character by character). -/
def pyLower (s : String) : String :=
  String.mk (s.toList.map Char.toLower)

/-- `config.py` line 56: `ENABLE_DANGEROUS_OPERATIONS = os.environ.get("ENABLE_DANGEROUS_OPERATIONS", "false").lower() == "true"`. -/
def ENABLE_DANGEROUS_OPERATIONS (env : Env) : Bool :=
  pyLower (envGet env "ENABLE_DANGEROUS_OPERATIONS" "false") == "true"

/-- `config.py` line 57: admin-operations feature flag, default `"true"`. -/
def ENABLE_ADMIN_OPERATIONS (env : Env) : Bool :=
  pyLower (envGet env "ENABLE_ADMIN_OPERATIONS" "true") == "true"

/-- `config.py` line 58: index-operations feature flag, default `"true"`. -/
def ENABLE_INDEX_OPERATIONS (env : Env) : Bool :=
  pyLower (envGet env "ENABLE_INDEX_OPERATIONS" "true") == "true"

/-- The resolved configuration snapshot: the module-level constants of
`config.py`, computed once from the environment at import time. -/
structure MongoConfig where
  uri : String
  defaultDb : Option String
  minPoolSize : Nat
  maxPoolSize : Nat
  maxIdleTimeMS : Nat
  serverSelectionTimeoutMS : Nat
  socketTimeoutMS : Nat
  connectTimeoutMS : Nat
  maxDocumentsLimit : Nat
  defaultBatchSize : Nat
  tlsEnabled : Bool
  tlsCAFile : Option String
  tlsCertFile : Option String
  tlsKeyFile : Option String
  authSource : String
  authMechanism : Option String
  readPreference : String
  writeConcernW : String
  writeConcernJ : Bool
  readConcernLevel : String
  enableDangerousOperations : Bool
  enableAdminOperations : Bool
  enableIndexOperations : Bool
deriving DecidableEq, Repr

/-- Loading `config.py`: every `int(os.environ.get(...))` conversion must
succeed (Python raises at import otherwise, hence `Option`); the remaining
constants are computed exactly as in lines 12-63 of `config.py`. -/
def loadConfig (env : Env) : Option MongoConfig := do
  let minPool ← pyNat (envGet env "MONGODB_MIN_POOL_SIZE" "0")
  let maxPool ← pyNat (envGet env "MONGODB_MAX_POOL_SIZE" "100")
  let maxIdle ← pyNat (envGet env "MONGODB_MAX_IDLE_TIME_MS" "30000")
  let srvSel ← pyNat (envGet env "MONGODB_SERVER_SELECTION_TIMEOUT_MS" "30000")
  let sockTO ← pyNat (envGet env "MONGODB_SOCKET_TIMEOUT_MS" "0")
  let connTO ← pyNat (envGet env "MONGODB_CONNECT_TIMEOUT_MS" "20000")
  let maxDocs ← pyNat (envGet env "MONGODB_MAX_DOCUMENTS_LIMIT" "1000")
  let batch ← pyNat (envGet env "MONGODB_DEFAULT_BATCH_SIZE" "100")
  some
    { uri := envGet env "MONGODB_URI" "mongodb://localhost:27017"
      defaultDb := env "MONGODB_DEFAULT_DB"
      minPoolSize := minPool
      maxPoolSize := maxPool
      maxIdleTimeMS := maxIdle
      serverSelectionTimeoutMS := srvSel
      socketTimeoutMS := sockTO
      connectTimeoutMS := connTO
      maxDocumentsLimit := maxDocs
      defaultBatchSize := batch
      tlsEnabled := pyLower (envGet env "MONGODB_TLS_ENABLED" "false") == "true"
      tlsCAFile := env "MONGODB_TLS_CA_FILE"
      tlsCertFile := env "MONGODB_TLS_CERT_FILE"
      tlsKeyFile := env "MONGODB_TLS_KEY_FILE"
      authSource := envGet env "MONGODB_AUTH_SOURCE" "admin"
      authMechanism := env "MONGODB_AUTH_MECHANISM"
      readPreference := envGet env "MONGODB_READ_PREFERENCE" "primary"
      writeConcernW := envGet env "MONGODB_WRITE_CONCERN_W" "1"
      writeConcernJ := pyLower (envGet env "MONGODB_WRITE_CONCERN_J" "false") == "true"
      readConcernLevel := envGet env "MONGODB_READ_CONCERN_LEVEL" "local"
      enableDangerousOperations := ENABLE_DANGEROUS_OPERATIONS env
      enableAdminOperations := ENABLE_ADMIN_OPERATIONS env
      enableIndexOperations := ENABLE_INDEX_OPERATIONS env }

/-- A value stored in the Python connection-options dict. -/
inductive OptVal where
  | natV (n : Nat)
  | strV (s : String)
  | boolV (b : Bool)
deriving DecidableEq, Repr

/-- `config.py` lines 124-151, `get_connection_options()`: the options dict in
Python insertion order — the base six entries, then `socketTimeoutMS` when
positive, then the TLS block when enabled, then `authMechanism` when set. -/
def get_connection_options (cfg : MongoConfig) : List (String × OptVal) :=
  [("minPoolSize", OptVal.natV cfg.minPoolSize),
   ("maxPoolSize", OptVal.natV cfg.maxPoolSize),
   ("maxIdleTimeMS", OptVal.natV cfg.maxIdleTimeMS),
   ("serverSelectionTimeoutMS", OptVal.natV cfg.serverSelectionTimeoutMS),
   ("connectTimeoutMS", OptVal.natV cfg.connectTimeoutMS),
   ("authSource", OptVal.strV cfg.authSource)]
  ++ (if cfg.socketTimeoutMS > 0 then
        [("socketTimeoutMS", OptVal.natV cfg.socketTimeoutMS)]
      else [])
  ++ (if cfg.tlsEnabled then
        [("tls", OptVal.boolV true)]
        ++ (if truthy cfg.tlsCAFile then
              [("tlsCAFile", OptVal.strV (cfg.tlsCAFile.getD ""))]
            else [])
        ++ (if truthy cfg.tlsCertFile then
              [("tlsCertificateKeyFile", OptVal.strV (cfg.tlsCertFile.getD ""))]
            else [])
      else [])
  ++ (if truthy cfg.authMechanism then
        [("authMechanism", OptVal.strV (cfg.authMechanism.getD ""))]
      else [])


/-- Standard base64 alphabet. -/
def b64Alphabet : List Char :=
  "ABCDEFGHIJKLMNOPQRSTUVWXYZabcdefghijklmnopqrstuvwxyz0123456789+/".toList

/-- Character for a six-bit value. -/
def b64Char (n : Nat) : Char :=
  b64Alphabet.getD n '?'

/-- Position of a character in `b64Alphabet` (0 for foreign characters). -/
def b64Index : List Char → Nat → Char → Nat
  | [], _, _ => 0
  | a :: rest, i, c => if a = c then i else b64Index rest (i + 1) c

/-- Six-bit value of a base64 character. -/
def b64Val (c : Char) : Nat :=
  b64Index b64Alphabet 0 c

/-- Base64 encoding of a byte list, three bytes to four characters, with
`=` padding. -/
def b64EncodeChars : List Nat → List Char
  | [] => []
  | [a] => [b64Char (a / 4), b64Char (a % 4 * 16), '=', '=']
  | [a, b] => [b64Char (a / 4), b64Char (a % 4 * 16 + b / 16), b64Char (b % 16 * 4), '=']
  | a :: b :: c :: rest =>
    b64Char (a / 4) :: b64Char (a % 4 * 16 + b / 16) :: b64Char (b % 16 * 4 + c / 64)
      :: b64Char (c % 64) :: b64EncodeChars rest

/-- Base64 decoding, inverse of `b64EncodeChars` on its image. -/
def b64DecodeChars : List Char → List Nat
  | w :: x :: y :: z :: rest =>
    if y = '=' then [b64Val w * 4 + b64Val x / 16]
    else if z = '=' then
      [b64Val w * 4 + b64Val x / 16, b64Val x % 16 * 16 + b64Val y / 4]
    else
      (b64Val w * 4 + b64Val x / 16) :: (b64Val x % 16 * 16 + b64Val y / 4)
        :: (b64Val y % 4 * 64 + b64Val z) :: b64DecodeChars rest
  | _ => []

/-- Base64 encoding to a transport string. -/
def b64Encode (bs : List Nat) : String :=
  String.mk (b64EncodeChars bs)

/-- Base64 decoding from a transport string. -/
def b64Decode (s : String) : List Nat :=
  b64DecodeChars s.toList

/-- A high-precision timestamp, held as calendar fields as the database
driver's datetime does. -/
structure DateTime where
  year : Nat
  month : Nat
  day : Nat
  hour : Nat
  minute : Nat
  second : Nat
  millis : Nat
deriving DecidableEq, Repr

/-- Character for a single decimal digit. -/
def digitChar (n : Nat) : Char :=
  Char.ofNat (48 + n)

/-- Numeric value of a decimal digit character. -/
def c2n (c : Char) : Nat :=
  c.toNat - 48

/-- Two-digit zero-padded decimal rendering. -/
def pad2 (n : Nat) : List Char :=
  [digitChar (n / 10), digitChar (n % 10)]

/-- Three-digit zero-padded decimal rendering. -/
def pad3 (n : Nat) : List Char :=
  [digitChar (n / 100), digitChar (n / 10 % 10), digitChar (n % 10)]

/-- Four-digit zero-padded decimal rendering. -/
def pad4 (n : Nat) : List Char :=
  [digitChar (n / 1000), digitChar (n / 100 % 10), digitChar (n / 10 % 10), digitChar (n % 10)]

/-- ISO-8601 rendering `YYYY-MM-DDTHH:MM:SS.mmmZ` of a timestamp. -/
def isoRender (dt : DateTime) : String :=
  String.mk (pad4 dt.year ++ '-' :: pad2 dt.month ++ '-' :: pad2 dt.day
    ++ 'T' :: pad2 dt.hour ++ ':' :: pad2 dt.minute ++ ':' :: pad2 dt.second
    ++ '.' :: pad3 dt.millis ++ ['Z'])

/-- ISO-8601 reading, inverse of `isoRender` on its image; `none` when the
string does not have the 24-character ISO shape. -/
def parseIso (s : String) : Option DateTime :=
  match s.toList with
  | [y1, y2, y3, y4, '-', o1, o2, '-', d1, d2, 'T', h1, h2, ':', i1, i2, ':',
     e1, e2, '.', m1, m2, m3, 'Z'] =>
    some { year := c2n y1 * 1000 + c2n y2 * 100 + c2n y3 * 10 + c2n y4
           month := c2n o1 * 10 + c2n o2
           day := c2n d1 * 10 + c2n d2
           hour := c2n h1 * 10 + c2n h2
           minute := c2n i1 * 10 + c2n i2
           second := c2n e1 * 10 + c2n e2
           millis := c2n m1 * 100 + c2n m2 * 10 + c2n m3 }
  | _ => none

mutual
/-- Database-native values: JSON scalars plus the extended types (object
identifier held as its canonical hex string, timestamp, binary payload),
with nested arrays and string-keyed documents. -/
inductive BsonValue where
  | str (s : String)
  | int (n : Int)
  | bool (b : Bool)
  | null
  | objectId (hex : String)
  | date (dt : DateTime)
  | binary (bytes : List Nat)
  | arr (items : BsonArr)
  | doc (fields : BsonDoc)
deriving DecidableEq, Repr
/-- A sequence of database-native values. -/
inductive BsonArr where
  | nil
  | cons (v : BsonValue) (rest : BsonArr)
deriving DecidableEq, Repr
/-- An ordered string-keyed document of database-native values. -/
inductive BsonDoc where
  | nil
  | cons (k : String) (v : BsonValue) (rest : BsonDoc)
deriving DecidableEq, Repr
end

mutual
/-- Transport-safe JSON values. -/
inductive JsonValue where
  | str (s : String)
  | int (n : Int)
  | bool (b : Bool)
  | null
  | arr (items : JsonArr)
  | obj (fields : JsonObj)
deriving DecidableEq, Repr
/-- A JSON array. -/
inductive JsonArr where
  | nil
  | cons (v : JsonValue) (rest : JsonArr)
deriving DecidableEq, Repr
/-- An ordered JSON object. -/
inductive JsonObj where
  | nil
  | cons (k : String) (v : JsonValue) (rest : JsonObj)
deriving DecidableEq, Repr
end

mutual
/-- Modelled from the spec: the Value Codec's `encode` direction
(`mongodb_json_serializer` in the absent module `mongo_mcp.utils.json_encoder`).
An object identifier becomes its canonical string form under the `$oid` tag, a
timestamp becomes an ISO-8601 string under `$date`, binary data becomes a
base64 string under `$binary`; other scalars, sequences and string-keyed
mappings pass through recursively unchanged, preserving order. -/
def encodeVal : BsonValue → JsonValue
  | .str s => .str s
  | .int n => .int n
  | .bool b => .bool b
  | .null => .null
  | .objectId h => .obj (.cons "$oid" (.str h) .nil)
  | .date dt => .obj (.cons "$date" (.str (isoRender dt)) .nil)
  | .binary bs => .obj (.cons "$binary" (.str (b64Encode bs)) .nil)
  | .arr vs => .arr (encodeArr vs)
  | .doc fs => .obj (encodeDoc fs)
termination_by structural v => v
/-- `encode` on sequences. -/
def encodeArr : BsonArr → JsonArr
  | .nil => .nil
  | .cons v rest => .cons (encodeVal v) (encodeArr rest)
termination_by structural v => v
/-- `encode` on documents, preserving key order. -/
def encodeDoc : BsonDoc → JsonObj
  | .nil => .nil
  | .cons k v rest => .cons k (encodeVal v) (encodeDoc rest)
termination_by structural v => v
end

mutual
/-- Modelled from the spec: the Value Codec's `decode` direction — the inverse
mapping for the same tagged forms, total on every JSON-representable input
(an untagged or unreadable object stays an ordinary document). -/
def decodeVal : JsonValue → BsonValue
  | .str s => .str s
  | .int n => .int n
  | .bool b => .bool b
  | .null => .null
  | .arr vs => .arr (decodeArr vs)
  | .obj fs => decodeObj fs
termination_by structural v => v
/-- `decode` on sequences. -/
def decodeArr : JsonArr → BsonArr
  | .nil => .nil
  | .cons v rest => .cons (decodeVal v) (decodeArr rest)
termination_by structural v => v
/-- `decode` on objects: a single-key tagged form becomes the corresponding
extended value, anything else is decoded field by field. -/
def decodeObj : JsonObj → BsonValue
  | .cons k (.str s) .nil =>
    if k = "$oid" then .objectId s
    else if k = "$date" then
      match parseIso s with
      | some dt => .date dt
      | none => .doc (.cons k (.str s) .nil)
    else if k = "$binary" then .binary (b64Decode s)
    else .doc (.cons k (.str s) .nil)
  | .nil => .doc .nil
  | .cons k v rest => .doc (.cons k (decodeVal v) (decodeFields rest))
termination_by structural v => v
/-- `decode` on document fields. -/
def decodeFields : JsonObj → BsonDoc
  | .nil => .nil
  | .cons k v rest => .cons k (decodeVal v) (decodeFields rest)
termination_by structural v => v
end


/-- Operation classes gated by the Capability Gate. -/
inductive OpClass where
  | readOp
  | writeOp
  | dangerousOp
  | adminOp
  | indexOp
deriving DecidableEq, Repr

/-- The three feature flags of the ConfigurationSnapshot. -/
structure FeatureFlagSet where
  dangerous : Bool
  admin : Bool
  indexOps : Bool
deriving DecidableEq, Repr

/-- The FeatureFlagSet resolved from a configuration snapshot. -/
def flagsOfConfig (cfg : MongoConfig) : FeatureFlagSet :=
  ⟨cfg.enableDangerousOperations, cfg.enableAdminOperations, cfg.enableIndexOperations⟩

/-- Modelled from the spec: the Capability Gate's `authorize` (the gating code
lives in the absent module `mongo_mcp.tools`) — read and write always allowed,
the three gated classes allowed only when their flag is set. -/
def authorize (f : FeatureFlagSet) : OpClass → Bool
  | .readOp => true
  | .writeOp => true
  | .dangerousOp => f.dangerous
  | .adminOp => f.admin
  | .indexOp => f.indexOps

/-- Modelled from the spec: the class of each named operation — database and
collection drop and bulk delete-many are dangerous, server and replica-set
status are administrative, the index operations form the index class, queries
and listings are reads, the remaining mutations are writes. -/
def opClassOf : String → OpClass
  | "drop_database" => .dangerousOp
  | "drop_collection" => .dangerousOp
  | "delete_many" => .dangerousOp
  | "get_server_status" => .adminOp
  | "get_replica_set_status" => .adminOp
  | "list_indexes" => .indexOp
  | "create_index" => .indexOp
  | "create_text_index" => .indexOp
  | "create_compound_index" => .indexOp
  | "drop_index" => .indexOp
  | "reindex_collection" => .indexOp
  | "insert_document" => .writeOp
  | "insert_many_documents" => .writeOp
  | "update_document" => .writeOp
  | "replace_document" => .writeOp
  | "delete_document" => .writeOp
  | "create_database" => .writeOp
  | "create_collection" => .writeOp
  | "rename_collection" => .writeOp
  | _ => .readOp

/-- A stub of the backing database: it records how many times a primitive
has been invoked against it. -/
structure DbStub where
  calls : Nat
deriving DecidableEq, Repr

/-- The gateway's error taxonomy. -/
inductive GatewayError where
  | validationError
  | capabilityDeniedError (cls : OpClass)
  | connectionError
  | databaseOperationError (msg : String)
deriving DecidableEq, Repr

/-- Modelled from the spec: the Tool Gateway's per-invocation pipeline (the
dispatch code lives in the absent module `mongo_mcp.tools`): validate the
required database name, then consult the Capability Gate, then run the
database primitive, then encode the result with the Value Codec. -/
def dispatch (flags : FeatureFlagSet) (cls : OpClass) (dbName : Option String)
    (prim : DbStub → DbStub × BsonValue) (db : DbStub) :
    DbStub × Except GatewayError JsonValue :=
  match dbName with
  | none => (db, .error .validationError)
  | some n =>
    if n = "" then (db, .error .validationError)
    else if authorize flags cls then
      let (db', v) := prim db
      (db', .ok (encodeVal v))
    else (db, .error (.capabilityDeniedError cls))

/-- A server step: one tool call dispatched against the process state; the
feature flags ride along unchanged, only the stub database evolves. -/
def serveCall (st : FeatureFlagSet × DbStub) (cls : OpClass)
    (dbName : Option String) (prim : DbStub → DbStub × BsonValue) :
    (FeatureFlagSet × DbStub) × Except GatewayError JsonValue :=
  ((st.1, (dispatch st.1 cls dbName prim st.2).1),
   (dispatch st.1 cls dbName prim st.2).2)

/-- The Connection Manager's state: the single shared pooled client handle,
`none` before lazy initialization and after shutdown. -/
structure MgrState where
  client : Option Nat
deriving DecidableEq, Repr

/-- The process starts with no client handle; `acquire` has not run. -/
def initialManager : MgrState := ⟨none⟩

/-- Modelled from the spec: `get_client` in the absent module `mongo_mcp.db` —
returns the shared handle, creating it on first call. -/
def get_client (s : MgrState) : MgrState × Nat :=
  match s.client with
  | some c => (s, c)
  | none => (⟨some 0⟩, 0)

/-- Modelled from the spec: `close_connection` in the absent module
`mongo_mcp.db` — releases the pooled client if any, never raises
(the second component is an error that never occurs). -/
def close_connection (s : MgrState) : MgrState × Option GatewayError :=
  (⟨none⟩, none)

/-- `close_connection` iterated `k` times, threading the manager state. -/
def closeTimes : Nat → MgrState → MgrState
  | 0, s => s
  | k + 1, s => closeTimes k (close_connection s).1

/-- Modelled from the spec: `find_documents` in the absent module
`mongo_mcp.tools`.  The documents matching the query are abstracted as the
list the database would return in order; a `limit` of `0` means no caller
limit, in which case the configured maximum document limit applies. -/
def find_documents (maxDocumentsLimit : Nat) (database_name collection_name : String)
    (matching : List BsonValue) (limit : Nat) : List BsonValue :=
  matching.take (if limit = 0 then maxDocumentsLimit else limit)

/-- Events a process run can emit, in order. -/
inductive ProcEvent where
  | logEvent (msg : String)
  | closeConn
  | exitProc (code : Nat)
deriving DecidableEq, Repr

/-- `server.py` lines 712-716, `signal_handler`: log, close the connection,
exit with status 0. -/
def signal_handler : List ProcEvent :=
  [.logEvent "Shutting down MCP server", .closeConn, .exitProc 0]

/-- `server.py` lines 719-720: the signals whose handler is `signal_handler`. -/
def handledSignals : List String :=
  ["SIGINT", "SIGTERM"]

/-- `server.py` lines 723-757, `start_server`: the outcome of `app.run` is
passed in; on an exception the handler logs the failure, closes the
connection and exits with status 1. -/
def start_server (runOutcome : Except String Unit) : List ProcEvent :=
  [.logEvent "Starting MCP server"]
    ++ match runOutcome with
       | .ok _ => []
       | .error e =>
         [.logEvent ("Failed to start MCP server: " ++ e), .closeConn, .exitProc 1]

/-- The first shutdown-relevant event of the trace is the connection close,
not the process exit. -/
def closesBeforeExit : List ProcEvent → Bool
  | [] => true
  | .closeConn :: _ => true
  | .exitProc _ :: _ => false
  | .logEvent _ :: rest => closesBeforeExit rest

/-- A JSON-compatible payload crossing the MCP boundary (`Dict[str, Any]`
and `Any` in the Python signatures). -/
abbrev Document := JsonValue

/-- The functions `server.py` imports from `mongo_mcp.tools` (lines 12-52),
held abstract: the wrappers below must forward to them unchanged. -/
structure ToolsModule where
  list_databases : Unit → List String
  list_collections : String → List String
  create_database : String → String → Option Document → Document
  drop_database : String → Document
  get_database_stats : String → Document
  create_collection : String → String → Option Document → Document
  drop_collection : String → String → Document
  rename_collection : String → String → String → Document
  get_collection_stats : String → String → Document
  insert_document : String → String → Document → Document
  insert_many_documents : String → String → List Document → Bool → Document
  find_documents : String → String → Document → Option Document → Int → Option Document → List Document
  find_one_document : String → String → Document → Option Document → Option Document
  count_documents : String → String → Document → Int
  update_document : String → String → Document → Document → Bool → Bool → Document
  replace_document : String → String → Document → Document → Bool → Document
  delete_document : String → String → Document → Bool → Document
  list_indexes : String → String → List Document
  create_index : String → String → Document → Option Document → Document
  create_text_index : String → String → List String → Option Document → Document
  create_compound_index : String → String → List (String × Document) → Option Document → Document
  drop_index : String → String → String → Document
  reindex_collection : String → String → Document
  aggregate_documents : String → String → List Document → Option Document → List Document
  distinct_values : String → String → String → Option Document → List Document
  get_server_status : Unit → Document
  get_replica_set_status : Unit → Option Document
  ping_database : Option String → Document
  test_mongodb_connection : Unit → Document
  get_connection_details : Unit → Document

/-- `server.py` lines 62-72. -/
def mcp_list_databases (t : ToolsModule) : List String :=
  t.list_databases ()

/-- `server.py` lines 74-88. -/
def mcp_list_collections (t : ToolsModule) (database_name : String) : List String :=
  t.list_collections database_name

/-- `server.py` lines 90-112 (decorator commented out). -/
def mcp_create_database (t : ToolsModule) (database_name initial_collection : String)
    (initial_document : Option Document) : Document :=
  t.create_database database_name initial_collection initial_document

/-- `server.py` lines 114-128 (decorator commented out). -/
def mcp_drop_database (t : ToolsModule) (database_name : String) : Document :=
  t.drop_database database_name

/-- `server.py` lines 130-144. -/
def mcp_get_database_stats (t : ToolsModule) (database_name : String) : Document :=
  t.get_database_stats database_name

/-- `server.py` lines 146-166 (decorator commented out). -/
def mcp_create_collection (t : ToolsModule) (database_name collection_name : String)
    (options : Option Document) : Document :=
  t.create_collection database_name collection_name options

/-- `server.py` lines 168-183 (decorator commented out). -/
def mcp_drop_collection (t : ToolsModule) (database_name collection_name : String) : Document :=
  t.drop_collection database_name collection_name

/-- `server.py` lines 185-205 (decorator commented out). -/
def mcp_rename_collection (t : ToolsModule) (database_name old_name new_name : String) : Document :=
  t.rename_collection database_name old_name new_name

/-- `server.py` lines 207-222. -/
def mcp_get_collection_stats (t : ToolsModule) (database_name collection_name : String) : Document :=
  t.get_collection_stats database_name collection_name

/-- `server.py` lines 225-245 (decorator commented out). -/
def mcp_insert_document (t : ToolsModule) (database_name collection_name : String)
    (document : Document) : Document :=
  t.insert_document database_name collection_name document

/-- `server.py` lines 247-269 (decorator commented out). -/
def mcp_insert_many_documents (t : ToolsModule) (database_name collection_name : String)
    (documents : List Document) (ordered : Bool) : Document :=
  t.insert_many_documents database_name collection_name documents ordered

/-- `server.py` lines 271-297. -/
def mcp_find_documents (t : ToolsModule) (database_name collection_name : String)
    (query : Document) (projection : Option Document) (limit : Int)
    (sort : Option Document) : List Document :=
  t.find_documents database_name collection_name query projection limit sort

/-- `server.py` lines 299-321. -/
def mcp_find_one_document (t : ToolsModule) (database_name collection_name : String)
    (query : Document) (projection : Option Document) : Option Document :=
  t.find_one_document database_name collection_name query projection

/-- `server.py` lines 323-343. -/
def mcp_count_documents (t : ToolsModule) (database_name collection_name : String)
    (query : Document) : Int :=
  t.count_documents database_name collection_name query

/-- `server.py` lines 345-371 (decorator commented out). -/
def mcp_update_document (t : ToolsModule) (database_name collection_name : String)
    (query update_data : Document) (upsert update_many : Bool) : Document :=
  t.update_document database_name collection_name query update_data upsert update_many

/-- `server.py` lines 373-397 (decorator commented out). -/
def mcp_replace_document (t : ToolsModule) (database_name collection_name : String)
    (query replacement : Document) (upsert : Bool) : Document :=
  t.replace_document database_name collection_name query replacement upsert

/-- `server.py` lines 399-421 (decorator commented out). -/
def mcp_delete_document (t : ToolsModule) (database_name collection_name : String)
    (query : Document) (delete_many : Bool) : Document :=
  t.delete_document database_name collection_name query delete_many

/-- `server.py` lines 424-439. -/
def mcp_list_indexes (t : ToolsModule) (database_name collection_name : String) : List Document :=
  t.list_indexes database_name collection_name

/-- `server.py` lines 441-463 (decorator commented out). -/
def mcp_create_index (t : ToolsModule) (database_name collection_name : String)
    (keys : Document) (options : Option Document) : Document :=
  t.create_index database_name collection_name keys options

/-- `server.py` lines 465-487 (decorator commented out). -/
def mcp_create_text_index (t : ToolsModule) (database_name collection_name : String)
    (fields : List String) (options : Option Document) : Document :=
  t.create_text_index database_name collection_name fields options

/-- `server.py` lines 489-511 (decorator commented out). -/
def mcp_create_compound_index (t : ToolsModule) (database_name collection_name : String)
    (field_specs : List (String × Document)) (options : Option Document) : Document :=
  t.create_compound_index database_name collection_name field_specs options

/-- `server.py` lines 513-533 (decorator commented out). -/
def mcp_drop_index (t : ToolsModule) (database_name collection_name index_name : String) : Document :=
  t.drop_index database_name collection_name index_name

/-- `server.py` lines 535-550 (decorator commented out). -/
def mcp_reindex_collection (t : ToolsModule) (database_name collection_name : String) : Document :=
  t.reindex_collection database_name collection_name

/-- `server.py` lines 553-575. -/
def mcp_aggregate_documents (t : ToolsModule) (database_name collection_name : String)
    (pipeline : List Document) (options : Option Document) : List Document :=
  t.aggregate_documents database_name collection_name pipeline options

/-- `server.py` lines 577-599. -/
def mcp_distinct_values (t : ToolsModule) (database_name collection_name field : String)
    (query : Option Document) : List Document :=
  t.distinct_values database_name collection_name field query

/-- `server.py` lines 602-612. -/
def mcp_get_server_status (t : ToolsModule) : Document :=
  t.get_server_status ()

/-- `server.py` lines 614-624. -/
def mcp_get_replica_set_status (t : ToolsModule) : Option Document :=
  t.get_replica_set_status ()

/-- `server.py` lines 626-639. -/
def mcp_ping_database (t : ToolsModule) (database_name : Option String) : Document :=
  t.ping_database database_name

/-- `server.py` lines 641-651. -/
def mcp_test_mongodb_connection (t : ToolsModule) : Document :=
  t.test_mongodb_connection ()

/-- `server.py` lines 653-663. -/
def mcp_get_connection_details (t : ToolsModule) : Document :=
  t.get_connection_details ()

/-- `server.py` lines 62-663: each `mcp_*` wrapper in definition order, paired
with whether its `@app.tool()` decorator is active (`true`) or commented out
(`false`). -/
def toolRegistry : List (String × Bool) :=
  [("mcp_list_databases", true),
   ("mcp_list_collections", true),
   ("mcp_create_database", false),
   ("mcp_drop_database", false),
   ("mcp_get_database_stats", true),
   ("mcp_create_collection", false),
   ("mcp_drop_collection", false),
   ("mcp_rename_collection", false),
   ("mcp_get_collection_stats", true),
   ("mcp_insert_document", false),
   ("mcp_insert_many_documents", false),
   ("mcp_find_documents", true),
   ("mcp_find_one_document", true),
   ("mcp_count_documents", true),
   ("mcp_update_document", false),
   ("mcp_replace_document", false),
   ("mcp_delete_document", false),
   ("mcp_list_indexes", true),
   ("mcp_create_index", false),
   ("mcp_create_text_index", false),
   ("mcp_create_compound_index", false),
   ("mcp_drop_index", false),
   ("mcp_reindex_collection", false),
   ("mcp_aggregate_documents", true),
   ("mcp_distinct_values", true),
   ("mcp_get_server_status", true),
   ("mcp_get_replica_set_status", true),
   ("mcp_ping_database", true),
   ("mcp_test_mongodb_connection", true),
   ("mcp_get_connection_details", true)]

/-- `server.py` lines 666-706: the `mongo_tools` catalog — the names of all
thirty wrapper functions, in the order the source lists them. -/
def mongo_tools : List String :=
  ["mcp_list_databases",
   "mcp_list_collections",
   "mcp_create_database",
   "mcp_drop_database",
   "mcp_get_database_stats",
   "mcp_create_collection",
   "mcp_drop_collection",
   "mcp_rename_collection",
   "mcp_get_collection_stats",
   "mcp_insert_document",
   "mcp_insert_many_documents",
   "mcp_find_documents",
   "mcp_find_one_document",
   "mcp_count_documents",
   "mcp_update_document",
   "mcp_replace_document",
   "mcp_delete_document",
   "mcp_list_indexes",
   "mcp_create_index",
   "mcp_create_text_index",
   "mcp_create_compound_index",
   "mcp_drop_index",
   "mcp_reindex_collection",
   "mcp_aggregate_documents",
   "mcp_distinct_values",
   "mcp_get_server_status",
   "mcp_get_replica_set_status",
   "mcp_ping_database",
   "mcp_test_mongodb_connection",
   "mcp_get_connection_details"]

/-- The wrappers actually registered on the FastMCP server: those whose
decorator is active. -/
def registeredTools : List String :=
  (toolRegistry.filter (fun p => p.2)).map (fun p => p.1)

/-- A fully populated environment: TLS on with all three file paths, an auth
mechanism, a positive socket timeout, and non-default read-preference,
write-concern and read-concern settings. -/
def env0 : Env := fun k =>
  if k = "MONGODB_TLS_ENABLED" then some "true"
  else if k = "MONGODB_TLS_CA_FILE" then some "/certs/ca.pem"
  else if k = "MONGODB_TLS_CERT_FILE" then some "/certs/client.pem"
  else if k = "MONGODB_TLS_KEY_FILE" then some "/certs/client-key.pem"
  else if k = "MONGODB_AUTH_MECHANISM" then some "SCRAM-SHA-256"
  else if k = "MONGODB_SOCKET_TIMEOUT_MS" then some "5000"
  else if k = "MONGODB_READ_PREFERENCE" then some "secondaryPreferred"
  else if k = "MONGODB_WRITE_CONCERN_W" then some "majority"
  else if k = "MONGODB_READ_CONCERN_LEVEL" then some "majority"
  else none

/-- The configuration snapshot `config.py` computes from `env0`. -/
def cfg0 : MongoConfig :=
  { uri := "mongodb://localhost:27017"
    defaultDb := none
    minPoolSize := 0
    maxPoolSize := 100
    maxIdleTimeMS := 30000
    serverSelectionTimeoutMS := 30000
    socketTimeoutMS := 5000
    connectTimeoutMS := 20000
    maxDocumentsLimit := 1000
    defaultBatchSize := 100
    tlsEnabled := true
    tlsCAFile := some "/certs/ca.pem"
    tlsCertFile := some "/certs/client.pem"
    tlsKeyFile := some "/certs/client-key.pem"
    authSource := "admin"
    authMechanism := some "SCRAM-SHA-256"
    readPreference := "secondaryPreferred"
    writeConcernW := "majority"
    writeConcernJ := false
    readConcernLevel := "majority"
    enableDangerousOperations := false
    enableAdminOperations := true
    enableIndexOperations := true }

/-- `String.toList` undoes `String.mk`. -/
theorem toList_mk (cs : List Char) : (String.mk cs).toList = cs := rfl

/-- `b64Val` inverts `b64Char` on six-bit values. -/
theorem b64Val_b64Char : ∀ n, n < 64 → b64Val (b64Char n) = n := by decide

/-- Alphabet characters are never the padding character. -/
theorem b64Char_ne_pad : ∀ n, n < 64 → b64Char n ≠ '=' := by decide

/-- Base64 decoding inverts encoding on byte lists. -/
theorem b64_decode_encode (bs : List Nat) (h : ∀ b ∈ bs, b < 256) :
    b64DecodeChars (b64EncodeChars bs) = bs := by
  induction bs using b64EncodeChars.induct with
  | case1 => rfl
  | case2 a =>
    have ha : a < 256 := h a (by simp)
    simp only [b64EncodeChars, b64DecodeChars, if_pos]
    rw [b64Val_b64Char _ (by omega), b64Val_b64Char _ (by omega)]
    simp only [List.cons.injEq, and_true]
    omega
  | case3 a b =>
    have ha : a < 256 := h a (by simp)
    have hb : b < 256 := h b (by simp)
    simp only [b64EncodeChars, b64DecodeChars]
    rw [if_neg (b64Char_ne_pad _ (by omega))]
    simp only [if_true]
    rw [b64Val_b64Char _ (by omega), b64Val_b64Char _ (by omega),
        b64Val_b64Char _ (by omega)]
    simp only [List.cons.injEq, and_true]
    exact ⟨by omega, by omega⟩
  | case4 a b c rest ih =>
    have ha : a < 256 := h a (by simp)
    have hb : b < 256 := h b (by simp)
    have hc : c < 256 := h c (by simp)
    have hrest : ∀ x ∈ rest, x < 256 := fun x hx => h x (by simp [hx])
    simp only [b64EncodeChars, b64DecodeChars]
    rw [if_neg (b64Char_ne_pad _ (by omega)), if_neg (b64Char_ne_pad _ (by omega))]
    rw [b64Val_b64Char _ (by omega), b64Val_b64Char _ (by omega),
        b64Val_b64Char _ (by omega), b64Val_b64Char _ (by omega)]
    rw [ih hrest]
    simp only [List.cons.injEq, and_true]
    exact ⟨by omega, by omega, by omega⟩

/-- `c2n` inverts `digitChar` on decimal digits. -/
theorem c2n_digitChar : ∀ d, d < 10 → c2n (digitChar d) = d := by decide

/-- Reading back a two-digit rendering. -/
theorem read_pad2 (n : Nat) (h : n < 100) :
    c2n (digitChar (n / 10)) * 10 + c2n (digitChar (n % 10)) = n := by
  rw [c2n_digitChar _ (by omega), c2n_digitChar _ (by omega)]
  omega

/-- Reading back a three-digit rendering. -/
theorem read_pad3 (n : Nat) (h : n < 1000) :
    c2n (digitChar (n / 100)) * 100 + c2n (digitChar (n / 10 % 10)) * 10
      + c2n (digitChar (n % 10)) = n := by
  rw [c2n_digitChar _ (by omega), c2n_digitChar _ (by omega), c2n_digitChar _ (by omega)]
  omega

/-- Reading back a four-digit rendering. -/
theorem read_pad4 (n : Nat) (h : n < 10000) :
    c2n (digitChar (n / 1000)) * 1000 + c2n (digitChar (n / 100 % 10)) * 100
      + c2n (digitChar (n / 10 % 10)) * 10 + c2n (digitChar (n % 10)) = n := by
  rw [c2n_digitChar _ (by omega), c2n_digitChar _ (by omega),
      c2n_digitChar _ (by omega), c2n_digitChar _ (by omega)]
  omega

/-- ISO-8601 reading inverts rendering on in-range timestamps. -/
theorem parseIso_isoRender (dt : DateTime) (hy : dt.year < 10000)
    (hmo : dt.month < 100) (hd : dt.day < 100) (hh : dt.hour < 100)
    (hmi : dt.minute < 100) (hs : dt.second < 100) (hms : dt.millis < 1000) :
    parseIso (isoRender dt) = some dt := by
  obtain ⟨y, mo, d, hr, mi, sc, ms⟩ := dt
  simp only at hy hmo hd hh hmi hs hms
  simp only [isoRender, pad4, pad2, pad3, List.cons_append, List.nil_append]
  simp only [parseIso, toList_mk]
  rw [read_pad4 _ hy, read_pad2 _ hmo, read_pad2 _ hd, read_pad2 _ hh,
      read_pad2 _ hmi, read_pad2 _ hs, read_pad3 _ hms]

/-- A timestamp whose fields fit the fixed-width ISO rendering. -/
def wfDateTime (dt : DateTime) : Bool :=
  dt.year < 10000 && dt.month < 100 && dt.day < 100 && dt.hour < 100
    && dt.minute < 100 && dt.second < 100 && dt.millis < 1000

/-- A well-formed value of one of the three supported extended types:
object identifier, in-range timestamp, or binary payload of bytes. -/
def wfExtended : BsonValue → Bool
  | .objectId _ => true
  | .date dt => wfDateTime dt
  | .binary bs => bs.all (fun b => b < 256)
  | _ => false

/-- Claim C3: for every value of a supported extended type (object identifier,
high-precision timestamp, binary payload), decoding the encoding of that value
yields the original value. -/
theorem codec_round_trip (v : BsonValue) (h : wfExtended v = true) :
    decodeVal (encodeVal v) = v := by
  cases v with
  | objectId hx => rfl
  | date dt =>
    simp only [wfExtended, wfDateTime, Bool.and_eq_true, decide_eq_true_eq] at h
    obtain ⟨⟨⟨⟨⟨⟨hy, hmo⟩, hd⟩, hh⟩, hmi⟩, hs⟩, hms⟩ := h
    simp only [encodeVal, decodeVal, decodeObj]
    rw [if_neg (by decide)]
    simp only [if_true]
    rw [parseIso_isoRender dt hy hmo hd hh hmi hs hms]
  | binary bs =>
    simp only [wfExtended, List.all_eq_true, decide_eq_true_eq] at h
    simp only [encodeVal, decodeVal, decodeObj]
    rw [if_neg (by decide), if_neg (by decide)]
    simp only [if_true, b64Decode, b64Encode, toList_mk]
    rw [b64_decode_encode bs h]
  | str s => simp [wfExtended] at h
  | int n => simp [wfExtended] at h
  | bool b => simp [wfExtended] at h
  | null => simp [wfExtended] at h
  | arr vs => simp [wfExtended] at h
  | doc fs => simp [wfExtended] at h

/-- Witness for C3: the round-trip law applied at a concrete timestamp
value. -/
theorem codec_round_trip_witness :
    wfExtended (.date ⟨2024, 5, 17, 13, 45, 9, 123⟩) = true ∧
      decodeVal (encodeVal (.date ⟨2024, 5, 17, 13, 45, 9, 123⟩))
        = .date ⟨2024, 5, 17, 13, 45, 9, 123⟩ :=
  ⟨by decide, codec_round_trip (.date ⟨2024, 5, 17, 13, 45, 9, 123⟩) (by decide)⟩

/-- Claim C1: an invocation of a dangerous-class operation (database drop,
collection drop, bulk delete-many) while the dangerous-operations flag is
false fails with `CapabilityDeniedError` and the database primitive is
invoked zero times — the stub comes back untouched and the result does not
depend on the primitive; likewise for admin- and index-class operations
under their flags. -/
theorem gate_denies_before_db (op : String) (flags : FeatureFlagSet) (n : String)
    (prim : DbStub → DbStub × BsonValue) (db : DbStub)
    (hn : n ≠ "")
    (hdenied :
      (opClassOf op = .dangerousOp ∧ flags.dangerous = false) ∨
      (opClassOf op = .adminOp ∧ flags.admin = false) ∨
      (opClassOf op = .indexOp ∧ flags.indexOps = false)) :
    dispatch flags (opClassOf op) (some n) prim db
      = (db, .error (.capabilityDeniedError (opClassOf op))) := by
  simp only [dispatch, if_neg hn]
  rcases hdenied with ⟨hc, hf⟩ | ⟨hc, hf⟩ | ⟨hc, hf⟩ <;>
    rw [hc] <;> simp [authorize, hf]

/-- Witness for C1: the spec scenario — dangerous flag false (the default
flag set), `drop_database` on database `test`, a counting stub: denied with
zero database calls. -/
theorem gate_denies_before_db_witness :
    ("test" : String) ≠ "" ∧
      dispatch ⟨false, true, true⟩ (opClassOf "drop_database") (some "test")
        (fun s => (⟨s.calls + 1⟩, BsonValue.null)) ⟨0⟩
        = (⟨0⟩, .error (.capabilityDeniedError (opClassOf "drop_database"))) :=
  ⟨by decide,
   gate_denies_before_db "drop_database" ⟨false, true, true⟩ "test"
     (fun s => (⟨s.calls + 1⟩, BsonValue.null)) ⟨0⟩ (by decide)
     (Or.inl ⟨rfl, rfl⟩)⟩

/-- Claim C7: a tool call whose required database name is missing or empty
fails with `ValidationError`, and the database stub is returned untouched —
the Connection Manager and database are never reached. -/
theorem missing_db_name_validation (flags : FeatureFlagSet) (cls : OpClass)
    (dbName : Option String) (prim : DbStub → DbStub × BsonValue) (db : DbStub)
    (h : dbName = none ∨ dbName = some "") :
    dispatch flags cls dbName prim db = (db, .error .validationError) := by
  rcases h with h | h <;> subst h <;> simp [dispatch]

/-- Witness for C7: a call with no database name at all is rejected by
validation while the counting stub stays at zero calls. -/
theorem missing_db_name_validation_witness :
    ((none : Option String) = none ∨ (none : Option String) = some "") ∧
      dispatch ⟨true, true, true⟩ .readOp none
        (fun s => (⟨s.calls + 1⟩, BsonValue.null)) ⟨0⟩
        = (⟨0⟩, .error .validationError) :=
  ⟨Or.inl rfl,
   missing_db_name_validation ⟨true, true, true⟩ .readOp none
     (fun s => (⟨s.calls + 1⟩, BsonValue.null)) ⟨0⟩ (Or.inl rfl)⟩

/-- Claim C4: a find-documents call with `limit = 0` returns at most the
configured maximum document limit many documents, never an unbounded
result. -/
theorem find_limit_zero_bounded (cfg : MongoConfig)
    (database_name collection_name : String) (matching : List BsonValue) :
    (find_documents cfg.maxDocumentsLimit database_name collection_name matching 0).length
      ≤ cfg.maxDocumentsLimit := by
  simp only [find_documents, if_true, List.length_take]
  omega

/-- `close_connection` always lands in the closed state. -/
theorem closeTimes_of_pos (k : Nat) (s : MgrState) (hk : 1 ≤ k) :
    closeTimes k s = ⟨none⟩ := by
  induction k generalizing s with
  | zero => omega
  | succ n ih =>
    cases n with
    | zero => rfl
    | succ m => exact ih (close_connection s).1 (by omega)

/-- Claim C6: calling `close` k times (k ≥ 1) is side-effect-equivalent to
calling it once, no call ever reports an error, and closing is safe from the
initial state where `acquire` (`get_client`) was never invoked. -/
theorem close_idempotent (k : Nat) (s : MgrState) (hk : 1 ≤ k) :
    closeTimes k s = closeTimes 1 s
    ∧ (∀ t : MgrState, (close_connection t).2 = none)
    ∧ closeTimes k initialManager = closeTimes 1 initialManager := by
  refine ⟨?_, fun t => rfl, ?_⟩
  · rw [closeTimes_of_pos k s hk, closeTimes_of_pos 1 s (by omega)]
  · rw [closeTimes_of_pos k initialManager hk,
        closeTimes_of_pos 1 initialManager (by omega)]

/-- Witness for C6: three closes from an acquired state equal one close. -/
theorem close_idempotent_witness :
    1 ≤ 3 ∧
      (closeTimes 3 ⟨some 5⟩ = closeTimes 1 ⟨some 5⟩
        ∧ (∀ t : MgrState, (close_connection t).2 = none)
        ∧ closeTimes 3 initialManager = closeTimes 1 initialManager) :=
  ⟨by decide, close_idempotent 3 ⟨some 5⟩ (by decide)⟩

/-- Claim C8: with no explicit configuration the flags default to dangerous
disabled, admin enabled, index enabled; and a serving step never alters the
flag set it started with — the snapshot read at startup is the one every
call consults. -/
theorem feature_flag_defaults (env : Env)
    (h1 : env "ENABLE_DANGEROUS_OPERATIONS" = none)
    (h2 : env "ENABLE_ADMIN_OPERATIONS" = none)
    (h3 : env "ENABLE_INDEX_OPERATIONS" = none) :
    ENABLE_DANGEROUS_OPERATIONS env = false
    ∧ ENABLE_ADMIN_OPERATIONS env = true
    ∧ ENABLE_INDEX_OPERATIONS env = true
    ∧ (∀ (st : FeatureFlagSet × DbStub) (cls : OpClass) (dbName : Option String)
        (prim : DbStub → DbStub × BsonValue),
        ((serveCall st cls dbName prim).1).1 = st.1) := by
  refine ⟨?_, ?_, ?_, fun st cls dbName prim => rfl⟩
  · show (pyLower ((env "ENABLE_DANGEROUS_OPERATIONS").getD "false") == "true") = false
    rw [h1]
    decide
  · show (pyLower ((env "ENABLE_ADMIN_OPERATIONS").getD "true") == "true") = true
    rw [h2]
    decide
  · show (pyLower ((env "ENABLE_INDEX_OPERATIONS").getD "true") == "true") = true
    rw [h3]
    decide

/-- Witness for C8: the empty environment. -/
theorem feature_flag_defaults_witness :
    ((fun _ => none : Env) "ENABLE_DANGEROUS_OPERATIONS" = none)
    ∧ (ENABLE_DANGEROUS_OPERATIONS (fun _ => none) = false
       ∧ ENABLE_ADMIN_OPERATIONS (fun _ => none) = true
       ∧ ENABLE_INDEX_OPERATIONS (fun _ => none) = true
       ∧ (∀ (st : FeatureFlagSet × DbStub) (cls : OpClass) (dbName : Option String)
           (prim : DbStub → DbStub × BsonValue),
           ((serveCall st cls dbName prim).1).1 = st.1)) :=
  ⟨rfl, feature_flag_defaults (fun _ => none) rfl rfl rfl⟩

/-- Claim C9: on a termination signal, and on an unrecoverable startup
error, the connection is closed before the process exits: both traces
contain the close and the exit, with the close first. -/
theorem shutdown_closes_before_exit :
    (closesBeforeExit signal_handler = true
      ∧ ProcEvent.closeConn ∈ signal_handler
      ∧ ProcEvent.exitProc 0 ∈ signal_handler)
    ∧ (∀ e : String,
        closesBeforeExit (start_server (.error e)) = true
        ∧ ProcEvent.closeConn ∈ start_server (.error e)
        ∧ ProcEvent.exitProc 1 ∈ start_server (.error e)) := by
  refine ⟨⟨rfl, by simp [signal_handler], by simp [signal_handler]⟩, fun e => ?_⟩
  refine ⟨rfl, by simp [start_server], by simp [start_server]⟩

/-- Claim C2 counterexample: `mcp_create_database` is named in the exposed
`mongo_tools` catalog but its `@app.tool()` registration is commented out,
so not every cataloged operation is registered. -/
theorem catalog_gap_create_database :
    "mcp_create_database" ∈ mongo_tools ∧ "mcp_create_database" ∉ registeredTools := by
  decide

/-- Claim C2 as amended: of the thirty cataloged operations exactly the
fifteen read-only, query, aggregation and monitoring tools are registered;
every registered tool is in the catalog, and the catalog has thirty
entries. -/
theorem registered_tools_exact :
    registeredTools =
      ["mcp_list_databases", "mcp_list_collections", "mcp_get_database_stats",
       "mcp_get_collection_stats", "mcp_find_documents", "mcp_find_one_document",
       "mcp_count_documents", "mcp_list_indexes", "mcp_aggregate_documents",
       "mcp_distinct_values", "mcp_get_server_status", "mcp_get_replica_set_status",
       "mcp_ping_database", "mcp_test_mongodb_connection", "mcp_get_connection_details"]
    ∧ mongo_tools.length = 30
    ∧ (∀ name ∈ registeredTools, name ∈ mongo_tools) := by
  refine ⟨by decide, by decide, by decide⟩

/-- The keys of the connection-options dict, branch by branch. -/
theorem keys_get_connection_options (cfg : MongoConfig) :
    (get_connection_options cfg).map Prod.fst =
      ["minPoolSize", "maxPoolSize", "maxIdleTimeMS", "serverSelectionTimeoutMS",
       "connectTimeoutMS", "authSource"]
      ++ (if cfg.socketTimeoutMS > 0 then ["socketTimeoutMS"] else [])
      ++ (if cfg.tlsEnabled then
            ["tls"] ++ (if truthy cfg.tlsCAFile then ["tlsCAFile"] else [])
              ++ (if truthy cfg.tlsCertFile then ["tlsCertificateKeyFile"] else [])
          else [])
      ++ (if truthy cfg.authMechanism then ["authMechanism"] else []) := by
  simp only [get_connection_options, List.map_append, apply_ite (List.map Prod.fst)]
  simp

/-- Claim C5 counterexample: from the fully populated environment `env0`
(TLS key file, read preference, write concern and read concern all set), the
snapshot is `cfg0`, yet the connection options carry no read-preference,
write-concern or read-concern key, and the TLS key file path value appears
nowhere in them — so not all of the claimed parameters reach the options. -/
theorem conn_options_missing_params :
    loadConfig env0 = some cfg0
    ∧ cfg0.tlsKeyFile = some "/certs/client-key.pem"
    ∧ cfg0.readPreference = "secondaryPreferred"
    ∧ cfg0.writeConcernW = "majority"
    ∧ cfg0.readConcernLevel = "majority"
    ∧ "readPreference" ∉ (get_connection_options cfg0).map Prod.fst
    ∧ "readConcern" ∉ (get_connection_options cfg0).map Prod.fst
    ∧ "readConcernLevel" ∉ (get_connection_options cfg0).map Prod.fst
    ∧ "w" ∉ (get_connection_options cfg0).map Prod.fst
    ∧ "journal" ∉ (get_connection_options cfg0).map Prod.fst
    ∧ OptVal.strV "/certs/client-key.pem" ∉ (get_connection_options cfg0).map Prod.snd := by
  decide

/-- Claim C5 as amended: the options always carry the pool bounds, idle
timeout, server-selection and connect timeouts and the auth source; the
socket timeout joins only when positive, the TLS CA and certificate files
only when TLS is enabled and they are set, the auth mechanism only when
set; and the options are independent of the TLS key file, read preference,
write concern and read concern, whose keys never appear. -/
theorem conn_options_amended (cfg : MongoConfig) (kf : Option String)
    (rp w rc : String) (j : Bool) :
    get_connection_options
        { cfg with
          tlsKeyFile := kf
          readPreference := rp
          writeConcernW := w
          writeConcernJ := j
          readConcernLevel := rc }
      = get_connection_options cfg
    ∧ "minPoolSize" ∈ (get_connection_options cfg).map Prod.fst
    ∧ "maxPoolSize" ∈ (get_connection_options cfg).map Prod.fst
    ∧ "maxIdleTimeMS" ∈ (get_connection_options cfg).map Prod.fst
    ∧ "serverSelectionTimeoutMS" ∈ (get_connection_options cfg).map Prod.fst
    ∧ "connectTimeoutMS" ∈ (get_connection_options cfg).map Prod.fst
    ∧ "authSource" ∈ (get_connection_options cfg).map Prod.fst
    ∧ "readPreference" ∉ (get_connection_options cfg).map Prod.fst
    ∧ "w" ∉ (get_connection_options cfg).map Prod.fst
    ∧ "journal" ∉ (get_connection_options cfg).map Prod.fst
    ∧ "readConcernLevel" ∉ (get_connection_options cfg).map Prod.fst
    ∧ "readConcern" ∉ (get_connection_options cfg).map Prod.fst
    ∧ ("socketTimeoutMS" ∈ (get_connection_options cfg).map Prod.fst
        ↔ cfg.socketTimeoutMS > 0)
    ∧ ("tls" ∈ (get_connection_options cfg).map Prod.fst
        ↔ cfg.tlsEnabled = true)
    ∧ ("tlsCAFile" ∈ (get_connection_options cfg).map Prod.fst
        ↔ cfg.tlsEnabled = true ∧ truthy cfg.tlsCAFile = true)
    ∧ ("tlsCertificateKeyFile" ∈ (get_connection_options cfg).map Prod.fst
        ↔ cfg.tlsEnabled = true ∧ truthy cfg.tlsCertFile = true)
    ∧ ("authMechanism" ∈ (get_connection_options cfg).map Prod.fst
        ↔ truthy cfg.authMechanism = true) := by
  rw [keys_get_connection_options]
  refine ⟨rfl, ?_, ?_, ?_, ?_, ?_, ?_, ?_, ?_, ?_, ?_, ?_, ?_, ?_, ?_, ?_, ?_⟩ <;>
    simp only [List.mem_append, List.mem_singleton, List.mem_cons,
      List.not_mem_nil] <;>
    split_ifs <;> simp_all

/-- Claim C10: every `mcp_*` wrapper is an exact pass-through — for all
arguments it returns precisely the corresponding tools-module function
applied to the same arguments in the same order, with no validation, gating,
encoding or error handling of its own. -/
theorem wrappers_pass_through :
    (∀ t, mcp_list_databases t = t.list_databases ())
    ∧ (∀ t a, mcp_list_collections t a = t.list_collections a)
    ∧ (∀ t a b c, mcp_create_database t a b c = t.create_database a b c)
    ∧ (∀ t a, mcp_drop_database t a = t.drop_database a)
    ∧ (∀ t a, mcp_get_database_stats t a = t.get_database_stats a)
    ∧ (∀ t a b c, mcp_create_collection t a b c = t.create_collection a b c)
    ∧ (∀ t a b, mcp_drop_collection t a b = t.drop_collection a b)
    ∧ (∀ t a b c, mcp_rename_collection t a b c = t.rename_collection a b c)
    ∧ (∀ t a b, mcp_get_collection_stats t a b = t.get_collection_stats a b)
    ∧ (∀ t a b c, mcp_insert_document t a b c = t.insert_document a b c)
    ∧ (∀ t a b c d, mcp_insert_many_documents t a b c d = t.insert_many_documents a b c d)
    ∧ (∀ t a b c d e f, mcp_find_documents t a b c d e f = t.find_documents a b c d e f)
    ∧ (∀ t a b c d, mcp_find_one_document t a b c d = t.find_one_document a b c d)
    ∧ (∀ t a b c, mcp_count_documents t a b c = t.count_documents a b c)
    ∧ (∀ t a b c d e f, mcp_update_document t a b c d e f = t.update_document a b c d e f)
    ∧ (∀ t a b c d e, mcp_replace_document t a b c d e = t.replace_document a b c d e)
    ∧ (∀ t a b c d, mcp_delete_document t a b c d = t.delete_document a b c d)
    ∧ (∀ t a b, mcp_list_indexes t a b = t.list_indexes a b)
    ∧ (∀ t a b c d, mcp_create_index t a b c d = t.create_index a b c d)
    ∧ (∀ t a b c d, mcp_create_text_index t a b c d = t.create_text_index a b c d)
    ∧ (∀ t a b c d, mcp_create_compound_index t a b c d = t.create_compound_index a b c d)
    ∧ (∀ t a b c, mcp_drop_index t a b c = t.drop_index a b c)
    ∧ (∀ t a b, mcp_reindex_collection t a b = t.reindex_collection a b)
    ∧ (∀ t a b c d, mcp_aggregate_documents t a b c d = t.aggregate_documents a b c d)
    ∧ (∀ t a b c d, mcp_distinct_values t a b c d = t.distinct_values a b c d)
    ∧ (∀ t, mcp_get_server_status t = t.get_server_status ())
    ∧ (∀ t, mcp_get_replica_set_status t = t.get_replica_set_status ())
    ∧ (∀ t a, mcp_ping_database t a = t.ping_database a)
    ∧ (∀ t, mcp_test_mongodb_connection t = t.test_mongodb_connection ())
    ∧ (∀ t, mcp_get_connection_details t = t.get_connection_details ()) :=
  ⟨fun _ => rfl, fun _ _ => rfl, fun _ _ _ _ => rfl, fun _ _ => rfl, fun _ _ => rfl,
   fun _ _ _ _ => rfl, fun _ _ _ => rfl, fun _ _ _ _ => rfl, fun _ _ _ => rfl,
   fun _ _ _ _ => rfl, fun _ _ _ _ _ => rfl, fun _ _ _ _ _ _ _ => rfl,
   fun _ _ _ _ _ => rfl, fun _ _ _ _ => rfl, fun _ _ _ _ _ _ _ => rfl,
   fun _ _ _ _ _ _ => rfl, fun _ _ _ _ _ => rfl, fun _ _ _ => rfl,
   fun _ _ _ _ _ => rfl, fun _ _ _ _ _ => rfl, fun _ _ _ _ _ => rfl,
   fun _ _ _ _ => rfl, fun _ _ _ => rfl, fun _ _ _ _ _ => rfl,
   fun _ _ _ _ _ => rfl, fun _ => rfl, fun _ => rfl, fun _ _ => rfl,
   fun _ => rfl, fun _ => rfl⟩
